import Mathlib

/-!
Verification development for the hera cron-workflow client wrapper.

The repository has two source files:

* `src/hera/v1/cron_workflow_service.py` — the `CronWorkflowService` class:
  a thin wrapper that stores `_domain`, `_namespace` and a generated API
  client handle (`service`), and exposes `create`, `delete`, `suspend`,
  `resume` and `get_cron_workflow_link`.  Each of the four remote
  operations performs exactly one call on the generated client and returns
  its result verbatim; `get_cron_workflow_link` is pure string formatting.

* `src/hera/models/workflows/grpc/gateway/runtime.py` — two generated
  pydantic models, `Error` and `StreamError`, whose fields are all
  `Optional[...] = None`.

Embedding choices:

* The generated client (`CronWorkflowServiceApi` from the external
  `argo_workflows` package) is external to the repository.  It is modelled
  as an abstract `Transport`: a function from an invocation descriptor
  (`GeneratedCall` — which generated method, with which positional
  arguments, which request envelope, and whether the `_check_return_type`
  keyword was explicitly passed) to a `TransportResult` (a successful
  workflow model, a successful `(body, status_code, headers)` triple as
  annotated on `delete`/`suspend`/`resume` in the source, or a raised
  exception).  `some false` for the flag means the wrapper passed
  `_check_return_type=False`; `none` means the keyword was not passed at
  all, so the generated client's own default applies.

* Python methods on a mutable object are embedded as state transformers:
  each wrapper method takes the receiver and returns the post-call
  receiver together with a `MethodRun` recording the transport calls it
  performed, in order, and its outcome.  The method bodies below are
  direct transcriptions of the Python bodies, which contain no assignment
  to `self` attributes and exactly one transport invocation each.

* Payload types that the wrapper never inspects (the cron-workflow model,
  response bodies, header dictionaries, exception objects, `protobuf.Any`)
  are type parameters `CW`, `Obj`, `Hdr`, `Exc`, `A`.
-/

namespace Hera

/-- Generated model from `runtime.py`:
`class Error(BaseModel)` with fields `code: Optional[int] = None`,
`details: Optional[List[protobuf.Any]] = None`, `error: Optional[str] = None`,
`message: Optional[str] = None`.  `A` stands for the external
`protobuf.Any` element type. -/
structure Error (A : Type) where
  code : Option Int := none
  details : Option (List A) := none
  error : Option String := none
  message : Option String := none
  deriving DecidableEq, Repr

/-- Generated model from `runtime.py`:
`class StreamError(BaseModel)` with fields `details: Optional[List[protobuf.Any]] = None`,
`grpc_code: Optional[int] = None`, `http_code: Optional[int] = None`,
`http_status: Optional[str] = None`, `message: Optional[str] = None`,
declared in that order. -/
structure StreamError (A : Type) where
  details : Option (List A) := none
  grpc_code : Option Int := none
  http_code : Option Int := none
  http_status : Option String := none
  message : Option String := none
  deriving DecidableEq, Repr

/-- Request envelope `IoArgoprojWorkflowV1alpha1CreateCronWorkflowRequest`
(from the external `argo_workflows.models`), as the wrapper constructs it:
`IoArgoprojWorkflowV1alpha1CreateCronWorkflowRequest(cron_workflow=..., namespace=...)`. -/
structure IoArgoprojWorkflowV1alpha1CreateCronWorkflowRequest (CW : Type) where
  cron_workflow : CW
  «namespace» : String
  deriving DecidableEq, Repr

/-- Request envelope `IoArgoprojWorkflowV1alpha1CronWorkflowSuspendRequest`,
as the wrapper constructs it: `(name=..., namespace=...)`. -/
structure IoArgoprojWorkflowV1alpha1CronWorkflowSuspendRequest where
  name : String
  «namespace» : String
  deriving DecidableEq, Repr

/-- Request envelope `IoArgoprojWorkflowV1alpha1CronWorkflowResumeRequest`,
as the wrapper constructs it: `(name=..., namespace=...)`. -/
structure IoArgoprojWorkflowV1alpha1CronWorkflowResumeRequest where
  name : String
  «namespace» : String
  deriving DecidableEq, Repr

/-- One invocation of a method of the generated `CronWorkflowServiceApi`
client, recording the method name, its positional arguments in order, and
the value of the `_check_return_type` keyword: `some b` when the wrapper
passed `_check_return_type=b` explicitly, `none` when it did not pass the
keyword at all. -/
inductive GeneratedCall (CW : Type) where
  | create_cron_workflow («namespace» : String)
      (req : IoArgoprojWorkflowV1alpha1CreateCronWorkflowRequest CW)
      (_check_return_type : Option Bool)
  | delete_cron_workflow («namespace» : String) (name : String)
      (_check_return_type : Option Bool)
  | suspend_cron_workflow («namespace» : String) (name : String)
      (req : IoArgoprojWorkflowV1alpha1CronWorkflowSuspendRequest)
      (_check_return_type : Option Bool)
  | resume_cron_workflow («namespace» : String) (name : String)
      (body : IoArgoprojWorkflowV1alpha1CronWorkflowResumeRequest)
      (_check_return_type : Option Bool)
  deriving DecidableEq, Repr

/-- What a generated-client invocation produces: a raised exception, a
cron-workflow model (`create`'s annotated success shape), or the
`Tuple(object, status_code(int), headers)` triple annotated on
`delete`/`suspend`/`resume` in the source. -/
inductive TransportResult (CW Obj Hdr Exc : Type) where
  | exn (e : Exc)
  | workflow (w : CW)
  | triple (body : Obj) (status_code : Int) (headers : Hdr)
  deriving DecidableEq, Repr

/-- The generated client handle, abstracted as a response to each possible
invocation. -/
def Transport (CW Obj Hdr Exc : Type) : Type :=
  GeneratedCall CW → TransportResult CW Obj Hdr Exc

/-- The observable effect of running one wrapper method body: the generated
client invocations it performed, in order, and the value it returned (or
the exception it propagated). -/
structure MethodRun (CW Obj Hdr Exc : Type) where
  calls : List (GeneratedCall CW)
  result : TransportResult CW Obj Hdr Exc

/-- `CronWorkflowService`: holds `self._domain`, `self._namespace` and the
generated client handle `self.service`, exactly the attributes assigned in
`__init__`. -/
structure CronWorkflowService (CW Obj Hdr Exc : Type) where
  _domain : String
  _namespace : String
  service : Transport CW Obj Hdr Exc

variable {CW Obj Hdr Exc : Type}

/-- `__init__(self, domain, token, namespace='default')`: stores the domain
and namespace and builds the generated client from the domain and token via
the external `Client(Config(domain), token).api_client` composition, which
is abstracted as `apiClientFor`. -/
def CronWorkflowService.init (apiClientFor : String → String → Transport CW Obj Hdr Exc)
    (domain token ns : String) : CronWorkflowService CW Obj Hdr Exc :=
  { _domain := domain, _namespace := ns, service := apiClientFor domain token }

/-- `create(self, cron_workflow, namespace='default')`:
`return self.service.create_cron_workflow(namespace,
IoArgoprojWorkflowV1alpha1CreateCronWorkflowRequest(cron_workflow=cron_workflow,
namespace=namespace), _check_return_type=False)`. -/
def CronWorkflowService.create (s : CronWorkflowService CW Obj Hdr Exc)
    (cron_workflow : CW) (ns : String) :
    CronWorkflowService CW Obj Hdr Exc × MethodRun CW Obj Hdr Exc :=
  let call : GeneratedCall CW :=
    GeneratedCall.create_cron_workflow ns
      { cron_workflow := cron_workflow, «namespace» := ns } (some false)
  (s, { calls := [call], result := s.service call })

/-- `delete(self, name, namespace='default')`:
`return self.service.delete_cron_workflow(namespace, name,
_check_return_type=False)`. -/
def CronWorkflowService.delete (s : CronWorkflowService CW Obj Hdr Exc)
    (name ns : String) :
    CronWorkflowService CW Obj Hdr Exc × MethodRun CW Obj Hdr Exc :=
  let call : GeneratedCall CW := GeneratedCall.delete_cron_workflow ns name (some false)
  (s, { calls := [call], result := s.service call })

/-- `suspend(self, name, namespace='default')`:
`return self.service.suspend_cron_workflow(namespace, name,
IoArgoprojWorkflowV1alpha1CronWorkflowSuspendRequest(name=name,
namespace=namespace), _check_return_type=False)`. -/
def CronWorkflowService.suspend (s : CronWorkflowService CW Obj Hdr Exc)
    (name ns : String) :
    CronWorkflowService CW Obj Hdr Exc × MethodRun CW Obj Hdr Exc :=
  let call : GeneratedCall CW :=
    GeneratedCall.suspend_cron_workflow ns name
      { name := name, «namespace» := ns } (some false)
  (s, { calls := [call], result := s.service call })

/-- `resume(self, name, namespace='default')`:
`return self.service.resume_cron_workflow(namespace, name,
body=IoArgoprojWorkflowV1alpha1CronWorkflowResumeRequest(name=name,
namespace=namespace))` — note: the `_check_return_type` keyword is NOT
passed, recorded as `none`. -/
def CronWorkflowService.resume (s : CronWorkflowService CW Obj Hdr Exc)
    (name ns : String) :
    CronWorkflowService CW Obj Hdr Exc × MethodRun CW Obj Hdr Exc :=
  let call : GeneratedCall CW :=
    GeneratedCall.resume_cron_workflow ns name
      { name := name, «namespace» := ns } none
  (s, { calls := [call], result := s.service call })

/-- `get_cron_workflow_link(self, name, namespace='default')`:
`return f'https://{self._domain}/cron-workflows/{namespace}/{name}'`.
Pure string formatting; performs no transport call and no assignment. -/
def CronWorkflowService.get_cron_workflow_link (s : CronWorkflowService CW Obj Hdr Exc)
    (name ns : String) : CronWorkflowService CW Obj Hdr Exc × String :=
  (s, "https://" ++ s._domain ++ "/cron-workflows/" ++ ns ++ "/" ++ name)

/-- The request envelope carried by a generated-client invocation, when one
is carried: its `namespace` field.  `delete_cron_workflow` takes no
envelope. -/
def GeneratedCall.envelopeNamespace : GeneratedCall CW → Option String
  | .create_cron_workflow _ req _ => some req.«namespace»
  | .delete_cron_workflow _ _ _ => none
  | .suspend_cron_workflow _ _ req _ => some req.«namespace»
  | .resume_cron_workflow _ _ body _ => some body.«namespace»

/-- Whether a generated-client invocation carries a request envelope. -/
def GeneratedCall.hasEnvelope : GeneratedCall CW → Bool
  | .create_cron_workflow _ _ _ => true
  | .delete_cron_workflow _ _ _ => false
  | .suspend_cron_workflow _ _ _ _ => true
  | .resume_cron_workflow _ _ _ _ => true

/-- The `_check_return_type` keyword value of an invocation: `some b` if
explicitly passed as `b`, `none` if the keyword was omitted. -/
def GeneratedCall.checkReturnTypeArg : GeneratedCall CW → Option Bool
  | .create_cron_workflow _ _ f => f
  | .delete_cron_workflow _ _ f => f
  | .suspend_cron_workflow _ _ _ f => f
  | .resume_cron_workflow _ _ _ f => f

/-- One wrapper-level operation invocation, for reasoning about sequences
of calls against one `CronWorkflowService` instance. -/
inductive OpCall (CW : Type) where
  | create (cron_workflow : CW) (ns : String)
  | delete (name ns : String)
  | suspend (name ns : String)
  | resume (name ns : String)
  | get_cron_workflow_link (name ns : String)

/-- The post-state of running one wrapper operation on instance `s`. -/
def applyOp (s : CronWorkflowService CW Obj Hdr Exc) :
    OpCall CW → CronWorkflowService CW Obj Hdr Exc
  | .create cw ns => (s.create cw ns).1
  | .delete n ns => (s.delete n ns).1
  | .suspend n ns => (s.suspend n ns).1
  | .resume n ns => (s.resume n ns).1
  | .get_cron_workflow_link n ns => (s.get_cron_workflow_link n ns).1

/-- The state of the instance after a whole sequence of wrapper operations. -/
def runOps (s : CronWorkflowService CW Obj Hdr Exc) (ops : List (OpCall CW)) :
    CronWorkflowService CW Obj Hdr Exc :=
  ops.foldl applyOp s

/-- Modelled from the spec: the spec's `buildLink` template,
`https://{domain}/cron-workflows/{namespace}/{name}`, as a pure function of
the three strings (section 8 of the spec). -/
def buildLinkSpec (domain ns name : String) : String :=
  "https://" ++ domain ++ "/cron-workflows/" ++ ns ++ "/" ++ name

/-- Pack the fields of `Error`, in declaration order, into a tuple. -/
def Error.fieldsTuple {A : Type} (e : Error A) :
    Option Int × Option (List A) × Option String × Option String :=
  (e.code, e.details, e.error, e.message)

/-- Pack the fields of `StreamError`, in the order the claim lists them,
into a tuple. -/
def StreamError.fieldsTuple {A : Type} (e : StreamError A) :
    Option Int × Option Int × Option String × Option String × Option (List A) :=
  (e.grpc_code, e.http_code, e.http_status, e.message, e.details)

/-- A concrete transport whose every call succeeds with the triple
`(body 1, status 200, headers 2)`, for witnesses. -/
def demoOkTransport : Transport Nat Nat Nat Nat :=
  fun _ => TransportResult.triple 1 200 2

/-- A concrete service instance over `demoOkTransport`, for witnesses. -/
def demoOkService : CronWorkflowService Nat Nat Nat Nat :=
  { _domain := "argo.example.com", _namespace := "default", service := demoOkTransport }

/-- A concrete transport configured to raise exception `7` on any call,
for witnesses. -/
def demoRaisingTransport : Transport Nat Nat Nat Nat :=
  fun _ => TransportResult.exn 7

/-- A concrete service instance over `demoRaisingTransport`, for witnesses. -/
def demoRaisingService : CronWorkflowService Nat Nat Nat Nat :=
  { _domain := "argo.example.com", _namespace := "default", service := demoRaisingTransport }

/-- C1: every envelope-constructing operation (`create`, `suspend`,
`resume`) performs exactly one generated-client call, and the request
envelope that call carries has its `namespace` field equal to the
`namespace` argument of the enclosing wrapper call — for every service
instance `s`, hence regardless of the wrapper's stored `_namespace` or any
other default. -/
theorem claim_C1_envelope_namespace_equals_argument
    (s : CronWorkflowService CW Obj Hdr Exc) (cron_workflow : CW) (name ns : String) :
    (s.create cron_workflow ns).2.calls.map GeneratedCall.envelopeNamespace = [some ns]
    ∧ (s.suspend name ns).2.calls.map GeneratedCall.envelopeNamespace = [some ns]
    ∧ (s.resume name ns).2.calls.map GeneratedCall.envelopeNamespace = [some ns] :=
  ⟨rfl, rfl, rfl⟩

/-- C2: for every service instance (with its stored domain) and every
namespace and name argument, `get_cron_workflow_link` returns exactly the
string `https://{domain}/cron-workflows/{namespace}/{name}` of the spec's
`buildLink` template — a pure function of the three strings, with no other
formatting and no transport interaction (the method's embedding performs no
generated-client call and leaves the instance untouched). -/
theorem claim_C2_get_cron_workflow_link_matches_template
    (s : CronWorkflowService CW Obj Hdr Exc) (name ns : String) :
    (s.get_cron_workflow_link name ns).2 = buildLinkSpec s._domain ns name :=
  rfl

/-- C3: whenever the underlying transport call succeeds with a
`(body, status_code, headers)` triple — the status code being an integer by
the generated client's return shape — `delete` and `suspend` each return
that triple exactly as supplied by the transport. -/
theorem claim_C3_delete_suspend_return_transport_triple
    (s : CronWorkflowService CW Obj Hdr Exc) (name ns : String)
    (b b' : Obj) (c c' : Int) (hd hd' : Hdr)
    (hdel : s.service (GeneratedCall.delete_cron_workflow ns name (some false))
      = TransportResult.triple b c hd)
    (hsus : s.service (GeneratedCall.suspend_cron_workflow ns name
        { name := name, «namespace» := ns } (some false))
      = TransportResult.triple b' c' hd') :
    (s.delete name ns).2.result = TransportResult.triple b c hd
    ∧ (s.suspend name ns).2.result = TransportResult.triple b' c' hd' :=
  ⟨hdel, hsus⟩

/-- C3 witness: on a concrete transport that answers every call with the
triple `(1, 200, 2)`, `delete` and `suspend` return exactly that triple. -/
theorem claim_C3_witness :
    demoOkService.service (GeneratedCall.delete_cron_workflow "ns" "wf" (some false))
      = TransportResult.triple 1 200 2
    ∧ demoOkService.service (GeneratedCall.suspend_cron_workflow "ns" "wf"
        { name := "wf", «namespace» := "ns" } (some false))
      = TransportResult.triple 1 200 2
    ∧ ((demoOkService.delete "wf" "ns").2.result = TransportResult.triple 1 200 2
       ∧ (demoOkService.suspend "wf" "ns").2.result = TransportResult.triple 1 200 2) :=
  ⟨rfl, rfl,
    claim_C3_delete_suspend_return_transport_triple demoOkService "wf" "ns" 1 1 200 200 2 2 rfl rfl⟩

/-- C4: if the transport raises exception `e` on any call, then each of
`create`, `delete`, `suspend`, `resume` propagates exactly `e` unchanged
(no catching, wrapping, translating, retrying) and performs exactly one
transport call — no further calls after the failure. -/
theorem claim_C4_exception_propagated_unchanged
    (s : CronWorkflowService CW Obj Hdr Exc) (e : Exc)
    (hfail : ∀ c, s.service c = TransportResult.exn e)
    (cron_workflow : CW) (name ns : String) :
    ((s.create cron_workflow ns).2.result = TransportResult.exn e
      ∧ (s.create cron_workflow ns).2.calls.length = 1)
    ∧ ((s.delete name ns).2.result = TransportResult.exn e
      ∧ (s.delete name ns).2.calls.length = 1)
    ∧ ((s.suspend name ns).2.result = TransportResult.exn e
      ∧ (s.suspend name ns).2.calls.length = 1)
    ∧ ((s.resume name ns).2.result = TransportResult.exn e
      ∧ (s.resume name ns).2.calls.length = 1) :=
  ⟨⟨hfail _, rfl⟩, ⟨hfail _, rfl⟩, ⟨hfail _, rfl⟩, ⟨hfail _, rfl⟩⟩

/-- C4 witness: on a concrete transport raising exception `7` on any call,
all four operations surface exactly exception `7` and make exactly one
transport call each. -/
theorem claim_C4_witness :
    (((demoRaisingService.create 5 "ns").2.result = TransportResult.exn 7
      ∧ (demoRaisingService.create 5 "ns").2.calls.length = 1)
    ∧ ((demoRaisingService.delete "wf" "ns").2.result = TransportResult.exn 7
      ∧ (demoRaisingService.delete "wf" "ns").2.calls.length = 1)
    ∧ ((demoRaisingService.suspend "wf" "ns").2.result = TransportResult.exn 7
      ∧ (demoRaisingService.suspend "wf" "ns").2.calls.length = 1)
    ∧ ((demoRaisingService.resume "wf" "ns").2.result = TransportResult.exn 7
      ∧ (demoRaisingService.resume "wf" "ns").2.calls.length = 1)) :=
  claim_C4_exception_propagated_unchanged demoRaisingService 7 (fun _ => rfl) 5 "wf" "ns"

/-- C5: the single generated-client call made by `resume` omits the
`_check_return_type` keyword (recorded `none`, so the client's internal
return-type validation is not disabled), whereas the calls made by
`create`, `delete` and `suspend` each pass `_check_return_type=False`
(recorded `some false`). -/
theorem claim_C5_resume_omits_check_return_type_flag
    (s : CronWorkflowService CW Obj Hdr Exc) (cron_workflow : CW) (name ns : String) :
    (s.resume name ns).2.calls.map GeneratedCall.checkReturnTypeArg = [none]
    ∧ (s.create cron_workflow ns).2.calls.map GeneratedCall.checkReturnTypeArg = [some false]
    ∧ (s.delete name ns).2.calls.map GeneratedCall.checkReturnTypeArg = [some false]
    ∧ (s.suspend name ns).2.calls.map GeneratedCall.checkReturnTypeArg = [some false] :=
  ⟨rfl, rfl, rfl, rfl⟩

/-- C6: for every name and namespace, `delete` performs exactly one
generated-client call, namely `delete_cron_workflow` invoked directly with
the pair `(namespace, name)` in that order (plus `_check_return_type=False`),
that call carries no request envelope, and `delete` returns the remote
call's result unmodified. -/
theorem claim_C6_delete_single_direct_call
    (s : CronWorkflowService CW Obj Hdr Exc) (name ns : String) :
    (s.delete name ns).2.calls = [GeneratedCall.delete_cron_workflow ns name (some false)]
    ∧ (s.delete name ns).2.calls.map GeneratedCall.hasEnvelope = [false]
    ∧ (s.delete name ns).2.result
      = s.service (GeneratedCall.delete_cron_workflow ns name (some false)) :=
  ⟨rfl, rfl, rfl⟩

/-- C7: `Error` carries exactly the fields `{code, details, error, message}`
and `StreamError` exactly `{grpc_code, http_code, http_status, message,
details}` — packing the declared fields into the corresponding tuple is a
bijection, so the models hold exactly that information — and no wrapper
operation constructs an instance of either type: each operation's result is
verbatim the transport's response to the single call it makes, and those
calls carry only strings and request envelopes. -/
theorem claim_C7_error_models_shape_passthrough (A : Type)
    (s : CronWorkflowService CW Obj Hdr Exc) (cron_workflow : CW) (name ns : String) :
    Function.Bijective (fun e : Error A => Error.fieldsTuple e)
    ∧ Function.Bijective (fun e : StreamError A => StreamError.fieldsTuple e)
    ∧ (s.create cron_workflow ns).2.result
      = s.service (GeneratedCall.create_cron_workflow ns
          { cron_workflow := cron_workflow, «namespace» := ns } (some false))
    ∧ (s.delete name ns).2.result
      = s.service (GeneratedCall.delete_cron_workflow ns name (some false))
    ∧ (s.suspend name ns).2.result
      = s.service (GeneratedCall.suspend_cron_workflow ns name
          { name := name, «namespace» := ns } (some false))
    ∧ (s.resume name ns).2.result
      = s.service (GeneratedCall.resume_cron_workflow ns name
          { name := name, «namespace» := ns } none) := by
  refine ⟨⟨?_, ?_⟩, ⟨?_, ?_⟩, rfl, rfl, rfl, rfl⟩
  · rintro ⟨a, b, c, d⟩ ⟨a', b', c', d'⟩ hxy
    simp only [Error.fieldsTuple, Prod.mk.injEq] at hxy
    obtain ⟨h1, h2, h3, h4⟩ := hxy
    subst h1; subst h2; subst h3; subst h4; rfl
  · rintro ⟨a, b, c, d⟩
    exact ⟨⟨a, b, c, d⟩, rfl⟩
  · rintro ⟨a, b, c, d, e⟩ ⟨a', b', c', d', e'⟩ hxy
    simp only [StreamError.fieldsTuple, Prod.mk.injEq] at hxy
    obtain ⟨h1, h2, h3, h4, h5⟩ := hxy
    subst h1; subst h2; subst h3; subst h4; subst h5; rfl
  · rintro ⟨a, b, c, d, e⟩
    exact ⟨⟨e, a, b, c, d⟩, rfl⟩

/-- C8: no wrapper operation mutates the instance: each of `create`,
`delete`, `suspend`, `resume`, `get_cron_workflow_link` returns the
receiver state unchanged (so stored domain, stored namespace and client
handle are all preserved), and the state after any sequence of wrapper
operations equals the initial state. -/
theorem claim_C8_operations_never_mutate_state
    (s : CronWorkflowService CW Obj Hdr Exc) (ops : List (OpCall CW))
    (cron_workflow : CW) (name ns : String) :
    (s.create cron_workflow ns).1 = s
    ∧ (s.delete name ns).1 = s
    ∧ (s.suspend name ns).1 = s
    ∧ (s.resume name ns).1 = s
    ∧ (s.get_cron_workflow_link name ns).1 = s
    ∧ runOps s ops = s := by
  refine ⟨rfl, rfl, rfl, rfl, rfl, ?_⟩
  induction ops with
  | nil => rfl
  | cons op rest ih =>
    have h : applyOp s op = s := by cases op <;> rfl
    calc runOps s (op :: rest) = runOps (applyOp s op) rest := rfl
      _ = runOps s rest := by rw [h]
      _ = s := ih

/-- C9: the namespace stored at construction is never read by any
operation: two instances sharing domain and client handle but differing in
stored namespace produce identical observable behavior (same transport
calls, same result, same link string) on every operation for identical
per-call arguments; only the per-call namespace argument takes effect. -/
theorem claim_C9_stored_namespace_never_read
    (d ns1 ns2 : String) (svc : Transport CW Obj Hdr Exc)
    (cron_workflow : CW) (name ns : String) :
    ((⟨d, ns1, svc⟩ : CronWorkflowService CW Obj Hdr Exc).create cron_workflow ns).2
      = ((⟨d, ns2, svc⟩ : CronWorkflowService CW Obj Hdr Exc).create cron_workflow ns).2
    ∧ ((⟨d, ns1, svc⟩ : CronWorkflowService CW Obj Hdr Exc).delete name ns).2
      = ((⟨d, ns2, svc⟩ : CronWorkflowService CW Obj Hdr Exc).delete name ns).2
    ∧ ((⟨d, ns1, svc⟩ : CronWorkflowService CW Obj Hdr Exc).suspend name ns).2
      = ((⟨d, ns2, svc⟩ : CronWorkflowService CW Obj Hdr Exc).suspend name ns).2
    ∧ ((⟨d, ns1, svc⟩ : CronWorkflowService CW Obj Hdr Exc).resume name ns).2
      = ((⟨d, ns2, svc⟩ : CronWorkflowService CW Obj Hdr Exc).resume name ns).2
    ∧ ((⟨d, ns1, svc⟩ : CronWorkflowService CW Obj Hdr Exc).get_cron_workflow_link name ns).2
      = ((⟨d, ns2, svc⟩ : CronWorkflowService CW Obj Hdr Exc).get_cron_workflow_link name ns).2 :=
  ⟨rfl, rfl, rfl, rfl, rfl⟩

/-- C10: every field of `Error` and of `StreamError` defaults to `none`
(`Optional[...] = None`), so both models can be constructed with no
arguments, yielding instances in which every field is `none`. -/
theorem claim_C10_error_models_default_all_none (A : Type) :
    ({} : Error A)
      = { code := none, details := none, error := none, message := none }
    ∧ ({} : StreamError A)
      = { details := none, grpc_code := none, http_code := none,
          http_status := none, message := none } :=
  ⟨rfl, rfl⟩

end Hera
